import Mathlib

/-!
Shallow embedding of the announcements router of a school management API
(`src/backend/routers/announcements.py`): active-window computation,
validation rules for dates, the authorization gate, and the CRUD
operations over the announcement store.

Dates are modelled as already-parsed values: `PyDateTime` carries the
calendar date (as a day ordinal) and the time of day, mirroring Python's
`datetime` with its `.date()` projection. The announcement store is an
association list from document id strings to documents; the Teacher
Directory is a list of usernames. Each endpoint becomes a pure function
from its inputs and the current store to a result paired with the final
store.
-/

namespace Announcements

/-- A parsed ISO datetime: the calendar date as a day ordinal plus the
time of day, mirroring Python's `datetime.fromisoformat` result. A bare
`YYYY-MM-DD` string parses with `time = 0`. -/
structure PyDateTime where
  date : Nat
  time : Nat
deriving DecidableEq

/-- Python's ordering on `datetime` values: lexicographic on
(date, time). -/
def PyDateTime.lt (a b : PyDateTime) : Bool :=
  a.date < b.date || (a.date == b.date && a.time < b.time)

/-- Python's `str.strip()`: remove leading and trailing whitespace. -/
def pyStrip (s : String) : String :=
  String.mk (((s.data.dropWhile Char.isWhitespace).reverse.dropWhile
    Char.isWhitespace).reverse)

/-- A stored announcement document. Optional fields model MongoDB's
dynamic shape: `none` means the field is absent from the document. Date
fields hold the parsed value of the stored ISO string. -/
structure Announcement where
  title : String
  message : String
  expiration_date : Option PyDateTime := none
  start_date : Option PyDateTime := none
  created_by : String := ""
  created_at : String := ""
  updated_by : Option String := none
  updated_at : Option String := none
deriving DecidableEq

/-- The announcement store: association list from document id strings to
documents. -/
abbrev Store := List (String × Announcement)

/-- Error taxonomy of the service (HTTP status classes). -/
inductive ApiError where
  | unauthorized
  | badRequest (detail : String)
  | notFound
deriving DecidableEq

/-- Model of `is_valid_object_id`: a string is a well-formed store identifier
when it is a 24-character hexadecimal string (BSON `ObjectId`). -/
def is_valid_object_id (id_str : String) : Bool :=
  id_str.length == 24 &&
    id_str.data.all (fun c =>
      c.isDigit || ("abcdefABCDEF".data.contains c))

/-- Lookup `find_one({"_id": ...})` on the announcement collection. -/
def findDoc (db : Store) (id : String) : Option Announcement :=
  (db.find? (fun p => p.1 == id)).map (fun p => p.2)

/-- Write `update_one({"_id": id}, ...)`: rewrite the matching document. -/
def updateDocWith (db : Store) (id : String)
    (f : Announcement → Announcement) : Store :=
  db.map (fun p => if p.1 == id then (p.1, f p.2) else p)

/-- Removal `delete_one({"_id": id})`: remove the matching document. -/
def deleteDoc (db : Store) (id : String) : Store :=
  db.filter (fun p => !(p.1 == id))

/-- Model of `is_announcement_active`: an announcement is active unless the
current UTC date is strictly after its expiration date (when that field
is present) or strictly before its start date (when that field is
present). Comparisons are at date granularity (`.date()`). -/
def is_announcement_active (announcement : Announcement)
    (current_date : Nat) : Bool :=
  if (match announcement.expiration_date with
      | some e => decide (current_date > e.date)
      | none => false) then false
  else if (match announcement.start_date with
      | some s => decide (current_date < s.date)
      | none => false) then false
  else true

/-- Lexicographic comparison of character lists by code point, the
order Python uses on `str`. -/
def charListLe : List Char → List Char → Bool
  | [], _ => true
  | _ :: _, [] => false
  | c :: cs, d :: ds =>
    if c.toNat < d.toNat then true
    else if d.toNat < c.toNat then false
    else charListLe cs ds

/-- Python's `<=` on strings: lexicographic by code point. -/
def strLe (a b : String) : Bool :=
  charListLe a.data b.data

/-- Python's stable `list.sort(key=..., reverse=True)`: stable sort,
descending by a string key. -/
def sortDescBy (key : α → String) (l : List α) : List α :=
  List.insertionSort (fun a b => strLe (key b) (key a) = true) l

/-- Endpoint `GET /announcements/` (`get_active_announcements`): keep the
documents for which `is_announcement_active` holds, sorted descending
by `created_at` (string comparison), newest first. No auth required. -/
def get_active_announcements (db : Store) (current_date : Nat) : Store :=
  sortDescBy (fun p => p.2.created_at)
    (db.filter (fun p => is_announcement_active p.2 current_date))

/-- Endpoint `GET /announcements/manage` (`get_all_announcements`): after the
authorization gate, every document annotated with its computed
`is_active` flag, sorted descending by `created_at`. -/
def get_all_announcements (teachers : List String)
    (teacher_username : String) (db : Store) (current_date : Nat) :
    Except ApiError (List ((String × Announcement) × Bool)) :=
  if teachers.contains teacher_username = false then
    Except.error ApiError.unauthorized
  else
    Except.ok (sortDescBy (fun q => q.1.2.created_at)
      (db.map (fun p => (p, is_announcement_active p.2 current_date))))

/-- Endpoint `POST /announcements/` (`create_announcement`). Inputs carry the
parsed dates (`start_date = none` models an absent or empty parameter);
`now` is the current UTC datetime and `nowIso` its ISO timestamp string.
`newId` is the id the store assigns on insert. Returns the response and
the final store. -/
def create_announcement (teachers : List String) (db : Store)
    (newId : String) (title message : String)
    (expiration_date : PyDateTime) (teacher_username : String)
    (start_date : Option PyDateTime) (now : PyDateTime)
    (nowIso : String) : Except ApiError Announcement × Store :=
  if teachers.contains teacher_username = false then
    (Except.error ApiError.unauthorized, db)
  else if title == "" || message == "" then
    (Except.error (ApiError.badRequest
      ("Title, message, and expiration_date are required")), db)
  else if (match start_date with
      | some s => PyDateTime.lt expiration_date s
      | none => false) then
    (Except.error (ApiError.badRequest
      ("Start date cannot be after expiration date")), db)
  else if expiration_date.date < now.date then
    (Except.error (ApiError.badRequest
      ("Expiration date cannot be in the past")), db)
  else
    let announcement : Announcement :=
      { title := pyStrip title, message := pyStrip message,
        expiration_date := some expiration_date,
        start_date := start_date,
        created_by := teacher_username, created_at := nowIso }
    (Except.ok announcement, db ++ [(newId, announcement)])

/-- The `$set` document of `update_announcement` applied to a stored
document: replace title/message/expiration_date/updated_at/updated_by,
and set `start_date` only when it was supplied. -/
def applyUpdateData (title message : String)
    (expiration_date : PyDateTime) (teacher_username : String)
    (start_date : Option PyDateTime) (nowIso : String)
    (doc : Announcement) : Announcement :=
  let doc2 : Announcement :=
    { doc with
      title := pyStrip title, message := pyStrip message,
      expiration_date := some expiration_date,
      updated_at := some nowIso,
      updated_by := some teacher_username }
  match start_date with
  | some s => { doc2 with start_date := some s }
  | none => doc2

/-- The `$unset` step of `update_announcement`: when `start_date` is
omitted, remove any stored `start_date` field first; otherwise the
store is untouched. -/
def unsetStartIfOmitted (db : Store) (announcement_id : String)
    (start_date : Option PyDateTime) : Store :=
  match start_date with
  | some _ => db
  | none => updateDocWith db announcement_id
      (fun d => { d with start_date := none })

/-- The final `$set` write of `update_announcement` against the store
state left by the `$unset` step: a `modified_count` of zero (the new
document equals the stored one, or the document vanished) is reported
as NotFound. -/
def update_write (db1 : Store) (announcement_id : String)
    (title message : String) (expiration_date : PyDateTime)
    (teacher_username : String) (start_date : Option PyDateTime)
    (nowIso : String) : Except ApiError Unit × Store :=
  match findDoc db1 announcement_id with
  | none => (Except.error ApiError.notFound, db1)
  | some existing1 =>
    if applyUpdateData title message expiration_date teacher_username
        start_date nowIso existing1 = existing1 then
      (Except.error ApiError.notFound, db1)
    else
      (Except.ok (), updateDocWith db1 announcement_id
        (fun _ => applyUpdateData title message expiration_date
          teacher_username start_date nowIso existing1))

/-- Endpoint `PUT /announcements/{id}` (`update_announcement`): authorization
gate, id well-formedness, field validation, existence check; when
`start_date` is omitted the stored `start_date` field is `$unset`
first; then the `$set` write, whose `modified_count = 0` (the new
document equals the stored one) is reported as NotFound. -/
def update_announcement (teachers : List String) (db : Store)
    (announcement_id : String) (title message : String)
    (expiration_date : PyDateTime) (teacher_username : String)
    (start_date : Option PyDateTime) (now : PyDateTime)
    (nowIso : String) : Except ApiError Unit × Store :=
  if teachers.contains teacher_username = false then
    (Except.error ApiError.unauthorized, db)
  else if is_valid_object_id announcement_id = false then
    (Except.error (ApiError.badRequest ("Invalid announcement ID")), db)
  else if title == "" || message == "" then
    (Except.error (ApiError.badRequest
      ("Title, message, and expiration_date are required")), db)
  else if (match start_date with
      | some s => PyDateTime.lt expiration_date s
      | none => false) then
    (Except.error (ApiError.badRequest
      ("Start date cannot be after expiration date")), db)
  else if expiration_date.date < now.date then
    (Except.error (ApiError.badRequest
      ("Expiration date cannot be in the past")), db)
  else
    match findDoc db announcement_id with
    | none => (Except.error ApiError.notFound, db)
    | some _ =>
      update_write
        (unsetStartIfOmitted db announcement_id start_date)
        announcement_id title message expiration_date
        teacher_username start_date nowIso

/-- Endpoint `DELETE /announcements/{id}` (`delete_announcement`):
authorization gate, id well-formedness, then `delete_one`;
`deleted_count = 0` is reported as NotFound. -/
def delete_announcement (teachers : List String) (db : Store)
    (announcement_id : String) (teacher_username : String) :
    Except ApiError Unit × Store :=
  if teachers.contains teacher_username = false then
    (Except.error ApiError.unauthorized, db)
  else if is_valid_object_id announcement_id = false then
    (Except.error (ApiError.badRequest ("Invalid announcement ID")), db)
  else
    match findDoc db announcement_id with
    | none => (Except.error ApiError.notFound, db)
    | some _ => (Except.ok (), deleteDoc db announcement_id)

/-- The stored/input relation enforced by the trimming write path: the
stored string is the input stripped of leading and trailing whitespace;
consequently it has neither, and it is non-empty whenever the input
contains some non-whitespace character. -/
def isTrimmedOf (stored input : String) : Prop :=
  stored = pyStrip input ∧
  (∀ c, stored.data.head? = some c → c.isWhitespace = false) ∧
  (∀ c, stored.data.getLast? = some c → c.isWhitespace = false) ∧
  ((¬ ∀ c ∈ input.data, c.isWhitespace = true) → stored ≠ "")

/-! ## Theorems -/

/-! ### Helper lemmas about `pyStrip` -/

theorem dropWhile_head_not (p : α → Bool) :
    ∀ (l : List α) (c : α), (l.dropWhile p).head? = some c →
      p c = false := by
  intro l
  induction l with
  | nil => intro c h; simp [List.dropWhile] at h
  | cons x xs ih =>
    intro c h
    rw [List.dropWhile_cons] at h
    by_cases hx : p x = true
    · rw [if_pos hx] at h
      exact ih c h
    · rw [if_neg hx] at h
      simp at h
      rw [← h]
      exact Bool.eq_false_iff.mpr hx

theorem dropWhile_getLast (p : α → Bool) :
    ∀ l : List α, l.dropWhile p ≠ [] →
      (l.dropWhile p).getLast? = l.getLast? := by
  intro l
  induction l with
  | nil => intro h; simp [List.dropWhile] at h
  | cons x xs ih =>
    intro h
    rw [List.dropWhile_cons] at h ⊢
    by_cases hx : p x = true
    · rw [if_pos hx] at h ⊢
      rw [ih h]
      have hxs : xs ≠ [] := by
        intro hnil
        rw [hnil] at h
        simp [List.dropWhile] at h
      cases xs with
      | nil => exact absurd rfl hxs
      | cons y ys => rfl
    · rw [if_neg hx]

theorem pyStrip_head_not_white (s : String) (c : Char)
    (h : (pyStrip s).data.head? = some c) : c.isWhitespace = false := by
  have hr : ((s.data.dropWhile Char.isWhitespace).reverse.dropWhile
      Char.isWhitespace).reverse.head? = some c := h
  rw [List.head?_reverse] at hr
  have hne : (s.data.dropWhile Char.isWhitespace).reverse.dropWhile
      Char.isWhitespace ≠ [] := by
    intro hnil
    rw [hnil] at hr
    simp at hr
  rw [dropWhile_getLast _ _ hne, List.getLast?_reverse] at hr
  exact dropWhile_head_not _ _ _ hr

theorem pyStrip_getLast_not_white (s : String) (c : Char)
    (h : (pyStrip s).data.getLast? = some c) :
    c.isWhitespace = false := by
  have hr : ((s.data.dropWhile Char.isWhitespace).reverse.dropWhile
      Char.isWhitespace).reverse.getLast? = some c := h
  rw [List.getLast?_reverse] at hr
  exact dropWhile_head_not _ _ _ hr

theorem pyStrip_empty_imp (s : String) (h : pyStrip s = "") :
    ∀ c ∈ s.data, c.isWhitespace = true := by
  have hdata : ((s.data.dropWhile Char.isWhitespace).reverse.dropWhile
      Char.isWhitespace).reverse = [] := congrArg String.data h
  rw [List.reverse_eq_nil_iff, List.dropWhile_eq_nil_iff] at hdata
  have h2 : ∀ x ∈ s.data.dropWhile Char.isWhitespace,
      x.isWhitespace = true :=
    fun x hx => hdata x (List.mem_reverse.mpr hx)
  intro c hc
  rw [← List.takeWhile_append_dropWhile (p := Char.isWhitespace)
    (l := s.data)] at hc
  rcases List.mem_append.mp hc with h4 | h4
  · exact List.mem_takeWhile_imp h4
  · exact h2 c h4

theorem pyStrip_isTrimmedOf (s : String) : isTrimmedOf (pyStrip s) s :=
  ⟨rfl, fun c h => pyStrip_head_not_white s c h,
    fun c h => pyStrip_getLast_not_white s c h,
    fun hn he => hn (pyStrip_empty_imp s he)⟩

theorem applyUpdateData_title (title message : String)
    (exp : PyDateTime) (u : String) (sd : Option PyDateTime)
    (nowIso : String) (d : Announcement) :
    (applyUpdateData title message exp u sd nowIso d).title
      = pyStrip title := by
  cases sd <;> rfl

theorem applyUpdateData_message (title message : String)
    (exp : PyDateTime) (u : String) (sd : Option PyDateTime)
    (nowIso : String) (d : Announcement) :
    (applyUpdateData title message exp u sd nowIso d).message
      = pyStrip message := by
  cases sd <;> rfl

/-! ### Helper lemmas about the stable descending sort -/

theorem charListLe_total : ∀ a b : List Char,
    charListLe a b = true ∨ charListLe b a = true := by
  intro a
  induction a with
  | nil => intro b; left; rfl
  | cons c cs ih =>
    intro b
    cases b with
    | nil => right; rfl
    | cons d ds =>
      by_cases h1 : c.toNat < d.toNat
      · left; simp [charListLe, h1]
      · by_cases h2 : d.toNat < c.toNat
        · right; simp [charListLe, h2]
        · rcases ih ds with h | h
          · left; simp [charListLe, h1, h2, h]
          · right; simp [charListLe, h1, h2, h]

theorem charListLe_trans : ∀ a b c : List Char,
    charListLe a b = true → charListLe b c = true →
    charListLe a c = true := by
  intro a
  induction a with
  | nil => intro b c _ _; rfl
  | cons x xs ih =>
    intro b c hab hbc
    cases b with
    | nil => simp [charListLe] at hab
    | cons y ys =>
      cases c with
      | nil => simp [charListLe] at hbc
      | cons z zs =>
        simp only [charListLe] at hab hbc ⊢
        rcases Nat.lt_trichotomy x.toNat y.toNat with h1 | h1 | h1 <;>
          rcases Nat.lt_trichotomy y.toNat z.toNat with h2 | h2 | h2 <;>
            simp_all <;> first
              | omega
              | (exact ih ys zs hab hbc)

theorem sortDescBy_perm (key : α → String) (l : List α) :
    List.Perm (sortDescBy key l) l :=
  List.perm_insertionSort _ l

theorem mem_sortDescBy (key : α → String) (l : List α) (x : α) :
    x ∈ sortDescBy key l ↔ x ∈ l :=
  (sortDescBy_perm key l).mem_iff

theorem sortDescBy_sorted (key : α → String) (l : List α) :
    (sortDescBy key l).Pairwise
      (fun a b => strLe (key b) (key a) = true) := by
  haveI : IsTotal α (fun a b => strLe (key b) (key a) = true) :=
    ⟨fun a b => (charListLe_total (key b).data (key a).data).imp
      (fun h => h) (fun h => h)⟩
  haveI : IsTrans α (fun a b => strLe (key b) (key a) = true) :=
    ⟨fun _ _ _ hab hbc => charListLe_trans _ _ _ hbc hab⟩
  exact List.sorted_insertionSort _ l

/-- C1: for every announcement record with a (parseable, present)
expiration_date and a current UTC date `now`, `is_announcement_active`
returns false if `now` is strictly after the expiration date, false if
a start date is present and `now` is strictly before it, and true
otherwise — all at date granularity. -/
theorem is_active_characterisation (a : Announcement) (e : PyDateTime)
    (now : Nat) (h : a.expiration_date = some e) :
    is_announcement_active a now = true ↔
      (now ≤ e.date ∧ ∀ s, a.start_date = some s → s.date ≤ now) := by
  cases hs : a.start_date with
  | none => simp [is_announcement_active, h, hs]
  | some s => simp [is_announcement_active, h, hs]

theorem is_active_characterisation_witness :
    is_announcement_active
      { title := "t", message := "m",
        expiration_date := some ⟨10, 0⟩,
        start_date := some ⟨5, 0⟩ } 7 = true :=
  (is_active_characterisation _ ⟨10, 0⟩ 7 rfl).mpr
    ⟨by decide, by intro s hs; injection hs with h2; subst h2; decide⟩

/-- C10: a record lacking the expiration_date field never expires:
`is_announcement_active` is true at every current date, unless a start
date is present and the current date is strictly before it. -/
theorem is_active_no_expiration (a : Announcement) (now : Nat)
    (h : a.expiration_date = none) :
    is_announcement_active a now = true ↔
      (∀ s, a.start_date = some s → s.date ≤ now) := by
  cases hs : a.start_date with
  | none => simp [is_announcement_active, h, hs]
  | some s => simp [is_announcement_active, h, hs]

theorem is_active_no_expiration_witness :
    is_announcement_active
      { title := "t", message := "m", expiration_date := none,
        start_date := none } 1000000 = true :=
  (is_active_no_expiration _ 1000000 rfl).mpr
    (by intro s hs; cases hs)

/-- C4: a call to list_all_for_management, create, update or delete
with a teacher_username that does not resolve in the Teacher Directory
returns Unauthorized before any field validation, id validation or
store mutation: the result is the Unauthorized error for every choice
of the other inputs, and the returned store is the input store. -/
theorem unauthorized_gate (teachers : List String) (u : String)
    (db : Store) (now : PyDateTime) (current_date : Nat)
    (newId id title message : String) (exp : PyDateTime)
    (sd : Option PyDateTime) (nowIso : String)
    (h : teachers.contains u = false) :
    get_all_announcements teachers u db current_date
      = Except.error ApiError.unauthorized ∧
    create_announcement teachers db newId title message exp u sd now
      nowIso = (Except.error ApiError.unauthorized, db) ∧
    update_announcement teachers db id title message exp u sd now
      nowIso = (Except.error ApiError.unauthorized, db) ∧
    delete_announcement teachers db id u
      = (Except.error ApiError.unauthorized, db) := by
  have h2 : u ∉ teachers := by simpa using h
  refine ⟨?_, ?_, ?_, ?_⟩ <;>
    simp [get_all_announcements, create_announcement,
      update_announcement, delete_announcement, h2]

theorem unauthorized_gate_witness :
    get_all_announcements [] "x" [] 0
      = Except.error ApiError.unauthorized ∧
    create_announcement [] [] "n" "t" "m" ⟨0, 0⟩ "x" none ⟨0, 0⟩ "ts"
      = (Except.error ApiError.unauthorized, []) ∧
    update_announcement [] [] "i" "t" "m" ⟨0, 0⟩ "x" none ⟨0, 0⟩ "ts"
      = (Except.error ApiError.unauthorized, []) ∧
    delete_announcement [] [] "i" "x"
      = (Except.error ApiError.unauthorized, []) :=
  unauthorized_gate [] "x" [] ⟨0, 0⟩ 0 "n" "i" "t" "m" ⟨0, 0⟩ none
    "ts" rfl

/-- C9: a call to update or delete with an authorized teacher and an
announcement_id that is not a well-formed store identifier fails with
BadRequest before any read or write of the announcement collection:
the result does not depend on the store contents and the store is
returned unchanged. -/
theorem malformed_id_rejected (teachers : List String) (db : Store)
    (id title message : String) (exp : PyDateTime) (u : String)
    (sd : Option PyDateTime) (now : PyDateTime) (nowIso : String)
    (hauth : teachers.contains u = true)
    (hid : is_valid_object_id id = false) :
    update_announcement teachers db id title message exp u sd now
      nowIso
      = (Except.error (ApiError.badRequest ("Invalid announcement ID")),
         db) ∧
    delete_announcement teachers db id u
      = (Except.error (ApiError.badRequest ("Invalid announcement ID")),
         db) := by
  have h2 : u ∈ teachers := by simpa using hauth
  constructor <;>
    simp [update_announcement, delete_announcement, h2, hid]

theorem malformed_id_rejected_witness :
    update_announcement ["t"] [] "zz" "a" "b" ⟨9, 0⟩ "t" none ⟨1, 0⟩
      "ts"
      = (Except.error (ApiError.badRequest ("Invalid announcement ID")),
         []) ∧
    delete_announcement ["t"] [] "zz" "t"
      = (Except.error (ApiError.badRequest ("Invalid announcement ID")),
         []) :=
  malformed_id_rejected ["t"] [] "zz" "a" "b" ⟨9, 0⟩ "t" none ⟨1, 0⟩
    "ts" (by decide) (by decide)

/-- C5: with an authorized teacher, create and update fail with
BadRequest whenever the expiration date is strictly earlier than the
current UTC date (date granularity); when the expiration date is today
or later, the past-expiration rejection never fires — in particular a
create whose other validations pass succeeds with expiration equal to
today. -/
theorem past_expiration_rule (teachers : List String) (db : Store)
    (newId id title message : String) (exp : PyDateTime) (u : String)
    (sd : Option PyDateTime) (now : PyDateTime) (nowIso : String)
    (hauth : teachers.contains u = true) :
    (exp.date < now.date →
      (∃ d, (create_announcement teachers db newId title message exp u
          sd now nowIso).1 = Except.error (ApiError.badRequest d)) ∧
      (∃ d, (update_announcement teachers db id title message exp u sd
          now nowIso).1 = Except.error (ApiError.badRequest d))) ∧
    (now.date ≤ exp.date →
      (create_announcement teachers db newId title message exp u sd now
          nowIso).1
        ≠ Except.error (ApiError.badRequest
            ("Expiration date cannot be in the past")) ∧
      (update_announcement teachers db id title message exp u sd now
          nowIso).1
        ≠ Except.error (ApiError.badRequest
            ("Expiration date cannot be in the past")) ∧
      (title ≠ "" → message ≠ "" →
        (match sd with
          | some s => PyDateTime.lt exp s
          | none => false) = false →
        ∃ a, create_announcement teachers db newId title message exp u
          sd now nowIso = (Except.ok a, db ++ [(newId, a)]))) := by
  have hmem : u ∈ teachers := by simpa using hauth
  refine ⟨fun hpast => ⟨?_, ?_⟩, fun hfut => ⟨?_, ?_, fun ht hm hsd => ?_⟩⟩
  · unfold create_announcement
    rw [if_neg (by simp [hmem])]
    repeat' split
    all_goals exact ⟨_, rfl⟩
  · unfold update_announcement
    rw [if_neg (by simp [hmem])]
    repeat' split
    all_goals exact ⟨_, rfl⟩
  · unfold create_announcement
    rw [if_neg (by simp [hmem]),
      if_neg (show ¬exp.date < now.date by omega)]
    repeat' split
    all_goals simp
  · unfold update_announcement update_write
    rw [if_neg (by simp [hmem]),
      if_neg (show ¬exp.date < now.date by omega)]
    repeat' split
    all_goals simp
  · unfold create_announcement
    rw [if_neg (by simp [hmem]), if_neg (by simp [ht, hm]),
      if_neg (by simp [hsd]), if_neg (by omega)]
    exact ⟨_, rfl⟩

theorem past_expiration_rule_witness :
    (∃ d, (create_announcement ["t"] [] "n" "a" "b" ⟨1, 0⟩ "t" none
        ⟨2, 0⟩ "ts").1 = Except.error (ApiError.badRequest d)) ∧
    (∃ a, create_announcement ["t"] [] "n" "a" "b" ⟨5, 0⟩ "t" none
        ⟨5, 0⟩ "ts" = (Except.ok a, [] ++ [("n", a)])) :=
  ⟨((past_expiration_rule ["t"] [] "n" "i" "a" "b" ⟨1, 0⟩ "t" none
      ⟨2, 0⟩ "ts" (by decide)).1 (by decide)).1,
   ((past_expiration_rule ["t"] [] "n" "i" "a" "b" ⟨5, 0⟩ "t" none
      ⟨5, 0⟩ "ts" (by decide)).2 (by decide)).2.2 (by decide)
      (by decide) rfl⟩

/-- C6: list_active returns exactly the records for which
`is_announcement_active` holds at the current date, sorted descending
by created_at under lexicographic string comparison; and
list_all_for_management (with an authorized teacher) returns every
record annotated with its correct is_active boolean, in the same
descending created_at order. -/
theorem listing_endpoints_spec (db : Store) (current_date : Nat)
    (teachers : List String) (u : String)
    (hauth : teachers.contains u = true) :
    (∀ p, p ∈ get_active_announcements db current_date ↔
      (p ∈ db ∧ is_announcement_active p.2 current_date = true)) ∧
    (get_active_announcements db current_date).Pairwise
      (fun p q => strLe q.2.created_at p.2.created_at = true) ∧
    (∃ l, get_all_announcements teachers u db current_date
        = Except.ok l ∧
      (∀ q, q ∈ l ↔
        (q.1 ∈ db ∧ q.2 = is_announcement_active q.1.2 current_date)) ∧
      l.Pairwise
        (fun a b => strLe b.1.2.created_at a.1.2.created_at = true)) := by
  have hmem : u ∈ teachers := by simpa using hauth
  refine ⟨fun p => ?_, sortDescBy_sorted _ _, ?_⟩
  · unfold get_active_announcements
    rw [mem_sortDescBy]
    simp [List.mem_filter]
  · unfold get_all_announcements
    rw [if_neg (by simp [hmem])]
    refine ⟨_, rfl, fun q => ?_, sortDescBy_sorted _ _⟩
    rw [mem_sortDescBy, List.mem_map]
    constructor
    · rintro ⟨p, hp, rfl⟩
      exact ⟨hp, rfl⟩
    · rintro ⟨h1, h2⟩
      refine ⟨q.1, h1, ?_⟩
      obtain ⟨q1, q2⟩ := q
      simp only at h2
      rw [h2]

theorem listing_endpoints_spec_witness :
    ("b", ({ title := "u", message := "m",
             expiration_date := some ⟨10, 0⟩,
             created_at := "2025" } : Announcement))
      ∈ get_active_announcements
        [("a", { title := "t", message := "m",
                 expiration_date := some ⟨10, 0⟩,
                 created_at := "2024" }),
         ("b", { title := "u", message := "m",
                 expiration_date := some ⟨10, 0⟩,
                 created_at := "2025" })] 5 :=
  ((listing_endpoints_spec
      [("a", { title := "t", message := "m",
               expiration_date := some ⟨10, 0⟩,
               created_at := "2024" }),
       ("b", { title := "u", message := "m",
               expiration_date := some ⟨10, 0⟩,
               created_at := "2025" })] 5 ["t"] "t" (by decide)).1
    _).mpr ⟨by decide, by decide⟩

theorem findDoc_updateDocWith (db : Store) (id : String)
    (f : Announcement → Announcement) :
    findDoc (updateDocWith db id f) id = (findDoc db id).map f := by
  induction db with
  | nil => rfl
  | cons p ps ih =>
    by_cases h : p.1 == id
    · simp [findDoc, updateDocWith, List.find?, h]
    · simp [findDoc, updateDocWith, List.find?, h] at ih ⊢
      exact ih

/-- Reduction of `update_announcement` through the validation gauntlet:
with an authorized teacher, a well-formed id, non-empty fields, the
start/expiration ordering satisfied, a non-past expiration and an
existing document, the call is the unset-then-write sequence. -/
theorem update_announcement_validated (teachers : List String)
    (db : Store) (id title message : String) (exp : PyDateTime)
    (u : String) (sd : Option PyDateTime) (now : PyDateTime)
    (nowIso : String) (ex : Announcement)
    (hmem : u ∈ teachers) (hid : is_valid_object_id id = true)
    (ht : title ≠ "") (hm : message ≠ "")
    (hsd : (match sd with
        | some s => PyDateTime.lt exp s
        | none => false) = false)
    (hfut : now.date ≤ exp.date)
    (hfound : findDoc db id = some ex) :
    update_announcement teachers db id title message exp u sd now nowIso
      = update_write (unsetStartIfOmitted db id sd) id title message
          exp u sd nowIso := by
  unfold update_announcement
  rw [if_neg (by simp [hmem]), if_neg (by simp [hid]),
    if_neg (by simp [ht, hm]), if_neg (by simp [hsd]),
    if_neg (by omega), hfound]

/-- Evaluation of `update_write` at a store where the document is found: the result
is decided by whether the `$set` would change the document. -/
theorem update_write_found (db1 : Store) (id title message : String)
    (exp : PyDateTime) (u : String) (sd : Option PyDateTime)
    (nowIso : String) (ex1 : Announcement)
    (hfind : findDoc db1 id = some ex1) :
    update_write db1 id title message exp u sd nowIso
      = if applyUpdateData title message exp u sd nowIso ex1 = ex1
        then (Except.error ApiError.notFound, db1)
        else (Except.ok (), updateDocWith db1 id
          (fun _ => applyUpdateData title message exp u sd nowIso ex1)) := by
  unfold update_write
  rw [hfind]

/-- C7: for a stored record carrying a start_date, a valid update with
start_date omitted succeeds and leaves the record with no start_date
field; a second omission-update with the same field values (and a fresh
server timestamp) also succeeds. -/
theorem update_omitted_start_clears (teachers : List String)
    (db : Store) (id title message : String) (exp : PyDateTime)
    (u : String) (now1 now2 : PyDateTime) (iso1 iso2 : String)
    (ex : Announcement) (s : PyDateTime)
    (hauth : teachers.contains u = true)
    (hid : is_valid_object_id id = true)
    (ht : title ≠ "") (hm : message ≠ "")
    (hfound : findDoc db id = some ex)
    (hstart : ex.start_date = some s)
    (hfresh1 : ex.updated_at ≠ some iso1)
    (hfresh2 : iso1 ≠ iso2)
    (hfut1 : now1.date ≤ exp.date) (hfut2 : now2.date ≤ exp.date) :
    ∃ db2, update_announcement teachers db id title message exp u none
        now1 iso1 = (Except.ok (), db2) ∧
      (∃ d1, findDoc db2 id = some d1 ∧ d1.start_date = none) ∧
      (update_announcement teachers db2 id title message exp u none
        now2 iso2).1 = Except.ok () := by
  have hmem : u ∈ teachers := by simpa using hauth
  have e1 : findDoc (unsetStartIfOmitted db id none) id
      = some { ex with start_date := none } := by
    unfold unsetStartIfOmitted
    rw [findDoc_updateDocWith, hfound]
    rfl
  have hne1 : applyUpdateData title message exp u none iso1
      { ex with start_date := none } ≠ { ex with start_date := none } := by
    intro hcontra
    have h2 := congrArg Announcement.updated_at hcontra
    simp [applyUpdateData] at h2
    exact hfresh1 h2.symm
  have h1 : update_announcement teachers db id title message exp u none
      now1 iso1
      = (Except.ok (), updateDocWith (unsetStartIfOmitted db id none)
          id (fun _ => applyUpdateData title message exp u none iso1
            { ex with start_date := none })) := by
    rw [update_announcement_validated teachers db id title message exp
      u none now1 iso1 ex hmem hid ht hm rfl hfut1 hfound,
      update_write_found (unsetStartIfOmitted db id none) id title
        message exp u none iso1 { ex with start_date := none } e1,
      if_neg hne1]
  have e2 : findDoc (updateDocWith (unsetStartIfOmitted db id none) id
      (fun _ => applyUpdateData title message exp u none iso1
        { ex with start_date := none })) id
      = some (applyUpdateData title message exp u none iso1
          { ex with start_date := none }) := by
    have h4 := findDoc_updateDocWith (unsetStartIfOmitted db id none)
      id (fun _ => applyUpdateData title message exp u none iso1
        { ex with start_date := none })
    rw [e1] at h4
    exact h4
  refine ⟨_, h1, ⟨_, e2, by simp [applyUpdateData]⟩, ?_⟩
  have e3 : findDoc (unsetStartIfOmitted (updateDocWith
      (unsetStartIfOmitted db id none) id
      (fun _ => applyUpdateData title message exp u none iso1
        { ex with start_date := none })) id none) id
      = some (applyUpdateData title message exp u none iso1
          { ex with start_date := none }) := by
    have h5 := findDoc_updateDocWith (updateDocWith
      (unsetStartIfOmitted db id none) id
      (fun _ => applyUpdateData title message exp u none iso1
        { ex with start_date := none })) id
      (fun d => { d with start_date := none })
    rw [e2] at h5
    exact h5
  have hne2 : applyUpdateData title message exp u none iso2
      (applyUpdateData title message exp u none iso1
        { ex with start_date := none })
      ≠ applyUpdateData title message exp u none iso1
          { ex with start_date := none } := by
    intro hcontra
    have h3 := congrArg Announcement.updated_at hcontra
    simp [applyUpdateData] at h3
    exact hfresh2 h3.symm
  rw [update_announcement_validated teachers _ id title message exp u
    none now2 iso2 _ hmem hid ht hm rfl hfut2 e2,
    update_write_found _ id title message exp u none iso2
      (applyUpdateData title message exp u none iso1
        { ex with start_date := none }) e3,
    if_neg hne2]

theorem update_omitted_start_clears_witness :
    ∃ db2, update_announcement ["t"]
        [("aaaaaaaaaaaaaaaaaaaaaaaa",
          { title := "old", message := "old",
            expiration_date := some ⟨9, 0⟩,
            start_date := some ⟨3, 0⟩,
            created_by := "t", created_at := "c" })]
        "aaaaaaaaaaaaaaaaaaaaaaaa" "a" "b" ⟨9, 0⟩ "t" none ⟨1, 0⟩
        "ts1" = (Except.ok (), db2) ∧
      (∃ d1, findDoc db2 ("aaaaaaaaaaaaaaaaaaaaaaaa") = some d1 ∧
        d1.start_date = none) ∧
      (update_announcement ["t"] db2 ("aaaaaaaaaaaaaaaaaaaaaaaa") "a"
        "b" ⟨9, 0⟩ "t" none ⟨1, 0⟩ "ts2").1 = Except.ok () :=
  update_omitted_start_clears ["t"] _ ("aaaaaaaaaaaaaaaaaaaaaaaa") "a"
    "b" ⟨9, 0⟩ "t" ⟨1, 0⟩ ⟨1, 0⟩ "ts1" "ts2" _ ⟨3, 0⟩ (by decide)
    (by decide) (by decide) (by decide) rfl rfl (by decide)
    (by decide) (by decide) (by decide)

/-- C8: with an authorized teacher and a well-formed id, update and
delete on an id with no record fail with NotFound and leave the store
unchanged; and update also fails with NotFound when the final write
would modify zero records (the written document equals the stored
one), even though the initial lookup succeeded. -/
theorem notfound_cases (teachers : List String) (db : Store)
    (id title message : String) (exp : PyDateTime) (u : String)
    (sd : Option PyDateTime) (now : PyDateTime) (nowIso : String)
    (hauth : teachers.contains u = true)
    (hid : is_valid_object_id id = true) :
    (title ≠ "" → message ≠ "" →
      (match sd with
        | some s => PyDateTime.lt exp s
        | none => false) = false →
      now.date ≤ exp.date →
      (findDoc db id = none →
        update_announcement teachers db id title message exp u sd now
          nowIso = (Except.error ApiError.notFound, db)) ∧
      (∀ ex, findDoc db id = some ex →
        applyUpdateData title message exp u sd nowIso
            (match sd with
              | some _ => ex
              | none => { ex with start_date := none })
          = (match sd with
              | some _ => ex
              | none => { ex with start_date := none }) →
        (update_announcement teachers db id title message exp u sd now
          nowIso).1 = Except.error ApiError.notFound)) ∧
    (findDoc db id = none →
      delete_announcement teachers db id u
        = (Except.error ApiError.notFound, db)) := by
  have hmem : u ∈ teachers := by simpa using hauth
  refine ⟨fun ht hm hsd hfut => ⟨fun hnone => ?_, fun ex hfound hnm => ?_⟩,
    fun hnone => ?_⟩
  · unfold update_announcement
    rw [if_neg (by simp [hmem]), if_neg (by simp [hid]),
      if_neg (by simp [ht, hm]), if_neg (by simp [hsd]),
      if_neg (by omega), hnone]
  · cases sd with
    | none =>
      have e1 : findDoc (unsetStartIfOmitted db id none) id
          = some { ex with start_date := none } := by
        unfold unsetStartIfOmitted
        have h4 := findDoc_updateDocWith db id
          (fun d => { d with start_date := none })
        rw [hfound] at h4
        exact h4
      rw [update_announcement_validated teachers db id title message
        exp u none now nowIso ex hmem hid ht hm rfl hfut hfound,
        update_write_found (unsetStartIfOmitted db id none) id title
          message exp u none nowIso { ex with start_date := none } e1,
        if_pos hnm]
    | some s0 =>
      rw [update_announcement_validated teachers db id title message
        exp u (some s0) now nowIso ex hmem hid ht hm hsd hfut hfound,
        update_write_found (unsetStartIfOmitted db id (some s0)) id
          title message exp u (some s0) nowIso ex hfound,
        if_pos hnm]
  · unfold delete_announcement
    rw [if_neg (by simp [hmem]), if_neg (by simp [hid]), hnone]

theorem notfound_cases_witness :
    ((update_announcement ["t"]
        [("aaaaaaaaaaaaaaaaaaaaaaaa",
          { title := "a", message := "b",
            expiration_date := some ⟨9, 0⟩, start_date := none,
            created_by := "t", created_at := "c",
            updated_by := some ("t"), updated_at := some ("ts") })]
        "aaaaaaaaaaaaaaaaaaaaaaaa" "a" "b" ⟨9, 0⟩ "t" none ⟨1, 0⟩
        "ts").1 = Except.error ApiError.notFound) ∧
    delete_announcement ["t"] [] "aaaaaaaaaaaaaaaaaaaaaaaa" "t"
      = (Except.error ApiError.notFound, []) :=
  ⟨((notfound_cases ["t"] _ ("aaaaaaaaaaaaaaaaaaaaaaaa") "a" "b" ⟨9, 0⟩
      "t" none ⟨1, 0⟩ "ts" (by decide) (by decide)).1 (by decide)
      (by decide) rfl (by decide)).2 _ rfl (by decide),
   (notfound_cases ["t"] [] "aaaaaaaaaaaaaaaaaaaaaaaa" "a" "b" ⟨9, 0⟩
      "t" none ⟨1, 0⟩ "ts" (by decide) (by decide)).2 rfl⟩

/-- C3, counterexample: a create call whose title is a single space (a
non-empty string, so it passes the required-fields check) succeeds and
persists a record whose stored title is the empty string — the claim
that every persisted title is non-empty fails on the code. -/
theorem trimmed_nonempty_cex :
    (" " ≠ "") ∧
    create_announcement ["t"] [] "n" " " "b" ⟨5, 0⟩ "t" none ⟨5, 0⟩
        "ts"
      = (Except.ok ({ title := "", message := "b",
                      expiration_date := some ⟨5, 0⟩,
                      created_by := "t",
                      created_at := "ts" } : Announcement),
         [("n", ({ title := "", message := "b",
                   expiration_date := some ⟨5, 0⟩,
                   created_by := "t",
                   created_at := "ts" } : Announcement))]) :=
  ⟨by decide, rfl⟩

/-- C3 (amended): every record persisted by create, and the record
written by a successful update, stores exactly the whitespace-trimmed
title and message: no leading or trailing whitespace, and non-empty
whenever the supplied value contains at least one non-whitespace
character (an all-whitespace input passes validation and is stored as
the empty string). -/
theorem stored_fields_trimmed (teachers : List String) (db : Store)
    (newId id title message : String) (exp : PyDateTime) (u : String)
    (sd : Option PyDateTime) (now : PyDateTime) (nowIso : String) :
    (∀ a db2, create_announcement teachers db newId title message exp
        u sd now nowIso = (Except.ok a, db2) →
      isTrimmedOf a.title title ∧ isTrimmedOf a.message message) ∧
    (∀ db2, update_announcement teachers db id title message exp u sd
        now nowIso = (Except.ok (), db2) →
      ∃ d, findDoc db2 id = some d ∧
        isTrimmedOf d.title title ∧ isTrimmedOf d.message message) := by
  constructor
  · intro a db2 h
    unfold create_announcement at h
    repeat' split at h
    all_goals simp at h
    rw [← h.1]
    exact ⟨pyStrip_isTrimmedOf title, pyStrip_isTrimmedOf message⟩
  · intro db2 h
    unfold update_announcement update_write at h
    repeat' split at h
    all_goals simp at h
    next existing1 heq hne =>
      subst h
      refine ⟨applyUpdateData title message exp u sd nowIso existing1,
        ?_, ?_, ?_⟩
      · have h4 := findDoc_updateDocWith
          (unsetStartIfOmitted db id sd) id
          (fun _ => applyUpdateData title message exp u sd nowIso
            existing1)
        rw [heq] at h4
        exact h4
      · rw [applyUpdateData_title]
        exact pyStrip_isTrimmedOf title
      · rw [applyUpdateData_message]
        exact pyStrip_isTrimmedOf message

theorem stored_fields_trimmed_witness :
    isTrimmedOf ("hi") ("  hi  ") ∧ isTrimmedOf ("b") ("b") :=
  (stored_fields_trimmed ["t"] [] "n" "i" "  hi  " "b" ⟨5, 0⟩ "t"
    none ⟨5, 0⟩ "ts").1
    ({ title := "hi", message := "b", expiration_date := some ⟨5, 0⟩,
       created_by := "t", created_at := "ts" } : Announcement)
    [("n", { title := "hi", message := "b",
             expiration_date := some ⟨5, 0⟩,
             created_by := "t", created_at := "ts" })] rfl

/-- C2, counterexample: with a start datetime and an expiration
datetime sharing the same date portion but a later start time, the
create call does fail with the start-after-expiration BadRequest — the
code compares the full parsed datetimes, not only the date portions as
the claim states. -/
theorem date_portion_comparison_cex :
    (PyDateTime.mk 100 1).date = (PyDateTime.mk 100 0).date ∧
    create_announcement ["t"] [] "aaaaaaaaaaaaaaaaaaaaaaaa" "a" "b"
        ⟨100, 0⟩ "t" (some ⟨100, 1⟩) ⟨50, 0⟩ "ts"
      = (Except.error (ApiError.badRequest
          ("Start date cannot be after expiration date")), []) :=
  ⟨rfl, rfl⟩

/-- C2 (amended): with an authorized teacher, non-empty fields and (for
update) a well-formed id, a call supplying both dates fails with the
start-after-expiration BadRequest exactly when the parsed start value
exceeds the parsed expiration value as a full datetime — so bare
`YYYY-MM-DD` inputs behave as a date comparison, but full ISO datetimes
with equal date portions and a later start time are also rejected. -/
theorem start_after_expiration_rule (teachers : List String)
    (db : Store) (newId id title message : String)
    (exp s : PyDateTime) (u : String) (now : PyDateTime)
    (nowIso : String)
    (hauth : teachers.contains u = true)
    (ht : title ≠ "") (hm : message ≠ "")
    (hid : is_valid_object_id id = true) :
    ((create_announcement teachers db newId title message exp u
        (some s) now nowIso).1
      = Except.error (ApiError.badRequest
          ("Start date cannot be after expiration date"))
      ↔ PyDateTime.lt exp s = true) ∧
    ((update_announcement teachers db id title message exp u (some s)
        now nowIso).1
      = Except.error (ApiError.badRequest
          ("Start date cannot be after expiration date"))
      ↔ PyDateTime.lt exp s = true) := by
  have hmem : u ∈ teachers := by simpa using hauth
  by_cases hlt : PyDateTime.lt exp s = true
  · constructor
    · unfold create_announcement
      rw [if_neg (by simp [hmem]), if_neg (by simp [ht, hm]),
        if_pos (show (match some s with
          | some t => PyDateTime.lt exp t
          | none => false) = true from hlt)]
      simp [hlt]
    · unfold update_announcement
      rw [if_neg (by simp [hmem]), if_neg (by simp [hid]),
        if_neg (by simp [ht, hm]),
        if_pos (show (match some s with
          | some t => PyDateTime.lt exp t
          | none => false) = true from hlt)]
      simp [hlt]
  · constructor
    · unfold create_announcement
      rw [if_neg (by simp [hmem]), if_neg (by simp [ht, hm]),
        if_neg (show ¬(match some s with
          | some t => PyDateTime.lt exp t
          | none => false) = true from hlt)]
      simp only [hlt, iff_false]
      split
      · simp
      · simp
    · unfold update_announcement update_write
      rw [if_neg (by simp [hmem]), if_neg (by simp [hid]),
        if_neg (by simp [ht, hm]),
        if_neg (show ¬(match some s with
          | some t => PyDateTime.lt exp t
          | none => false) = true from hlt)]
      simp only [hlt, iff_false]
      repeat' split
      all_goals simp

theorem start_after_expiration_rule_witness :
    (create_announcement ["t"] [] "n" "a" "b" ⟨10, 0⟩ "t"
      (some ⟨10, 1⟩) ⟨1, 0⟩ "ts").1
      = Except.error (ApiError.badRequest
          ("Start date cannot be after expiration date")) :=
  ((start_after_expiration_rule ["t"] [] "n"
    "aaaaaaaaaaaaaaaaaaaaaaaa" "a" "b" ⟨10, 0⟩ ⟨10, 1⟩ "t" ⟨1, 0⟩
    "ts" (by decide) (by decide) (by decide) (by decide)).1).mpr
    (by decide)

end Announcements
